import Mathlib

/-
Verification of the precision-landing guidance controller in src/landing2.py
against its natural-language specification.

The embedding models the pure decision logic of the controller. Telemetry
reads, real-time sleeps and actuator writes are environment effects: they are
represented by explicit parameters (an observation function per correction
attempt, an engine list for the thrust query) and by result records carrying
the values the code would command (throttle level, burn duration, direction
vector). Python floats are modelled by exact rationals except where the code
uses pi and cosine, where the real numbers are used.
-/

namespace Landing2

/-- Radius of Kerbin in metres (line 6 of src/landing2.py). -/
def R : ℝ := 600000

/-- Altitude at which the correction phase ends, metres (line 7). -/
def TARGET_ALT : ℚ := 1000

/-- Success tolerance on the predicted-landing-point error, degrees (line 8). -/
def MISS : ℚ := 0.2

/-- One engine as seen by get_current_thrust (lines 12-16): its available
thrust and the two flags the sum filters on. -/
structure Engine where
  available_thrust : ℚ
  active : Bool
  has_fuel : Bool

/-- get_current_thrust (lines 12-16): summed available thrust over the engines
that are active and have fuel. -/
def get_current_thrust (engines : List Engine) : ℚ :=
  ((engines.filter fun e => e.active && e.has_fuel).map Engine.available_thrust).sum

/-- predict_landing_coords (lines 34-43). Inputs are the vessel's current
latitude, longitude and surface altitude together with the measured angular
rates and vertical speed; the Python None, None result (vessel not falling)
is the Option none. -/
def predict_landing_coords (lat lon alt ω_lat ω_lon V_alt : ℚ) : Option (ℚ × ℚ) :=
  if 0 ≤ V_alt then none
  else
    some (lat + ω_lat * ((alt - TARGET_ALT) / |V_alt|),
          lon + ω_lon * ((alt - TARGET_ALT) / |V_alt|))

/-- calculate_required_dV (lines 45-56): dead zone below 0.01 degrees, else
dcoord times (pi * R) / (180 * t), additionally scaled by cos of the latitude
in radians when |lat| > 0.1 (the longitude case). -/
noncomputable def calculate_required_dV (dcoord t lat : ℝ) : ℝ :=
  if |dcoord| < 0.01 then 0
  else if |lat| > 0.1 then dcoord * (Real.pi * R / (180 * t) * Real.cos (lat * Real.pi / 180))
  else dcoord * (Real.pi * R / (180 * t))

/-- The roll component chosen by apply_correction (lines 65-69): sign of dV_lat
when its magnitude exceeds 0.1, otherwise 0. -/
def correction_roll (dV_lat : ℚ) : ℚ :=
  if 0.1 < |dV_lat| then (if 0 < dV_lat then 1 else -1) else 0

/-- The heading component chosen by apply_correction (lines 65-66, 81-82): sign
of dV_lon when its magnitude exceeds 0.1, otherwise 0. -/
def correction_heading (dV_lon : ℚ) : ℚ :=
  if 0.1 < |dV_lon| then (if 0 < dV_lon then 1 else -1) else 0

/-- The target direction vector commanded by apply_correction (lines 87-92):
the third component is zeroed when |dV_lon| < 10 or |dV_lat| < 10, else it
repeats the heading. -/
def correction_direction (dV_lat dV_lon : ℚ) : ℚ × ℚ × ℚ :=
  if |dV_lon| < 10 ∨ |dV_lat| < 10 then (correction_heading dV_lon, correction_roll dV_lat, 0)
  else (correction_heading dV_lon, correction_roll dV_lat, correction_heading dV_lon)

/-- Outcome of the actuation part of apply_correction: whether the function
took the early-failure return (line 109), whether it printed the critical
thrust report (line 108), and the burn it performed, as the commanded
throttle level paired with the held duration (lines 117-119). -/
structure ApplyResult where
  failed : Bool
  reported : Bool
  burn : Option (ℚ × ℚ)
deriving DecidableEq

/-- Actuation part of apply_correction (lines 101-119). mass is vessel.mass;
dV is the magnitude sqrt(dV_lat^2 + dV_lon^2) computed at line 103 and passed
through here; thr_pow is the throttle argument. With positive thrust the burn
holds thr_pow for max(0.05, min(mass * dV / thrust, 5)) seconds; with no
thrust the function reports the critical error and returns False. -/
def apply_correction (engines : List Engine) (mass dV thr_pow : ℚ) : ApplyResult :=
  if 0 < get_current_thrust engines then
    { failed := false, reported := false,
      burn := some (thr_pow, max 0.05 (min (mass * dV / get_current_thrust engines) 5)) }
  else
    { failed := true, reported := true, burn := none }

/-- The throttle tier check_and_correct hands to apply_correction for an
attempt whose correction errors are dlat, dlon: line 177 passes the literal
0.5 whatever the errors are. -/
def correction_throttle (dlat dlon : ℚ) : ℚ := 0.5

/-- The for-loop of check_and_correct (lines 130-180), abstracted over the
environment: obs k is the predicted landing point attempt k obtains once the
not-descending recovery loop (lines 139-156) has produced a valid prediction.
a is the current attempt number, the second argument the remaining attempts.
Returns some k when attempt k finds both errors below MISS (return True,
line 169) and none when the attempts are exhausted (return False, line 180). -/
def ccFrom (obs : ℕ → ℚ × ℚ) (target_lat target_lon : ℚ) : ℕ → ℕ → Option ℕ
  | _, 0 => none
  | a, r + 1 =>
    if |target_lat - (obs a).1| < MISS ∧ |target_lon - (obs a).2| < MISS then some a
    else ccFrom obs target_lat target_lon (a + 1) r

/-- check_and_correct's boolean result (lines 130-180); the source default for
max_attempts is 20 and the attempt counter starts at 1. -/
def check_and_correct (obs : ℕ → ℚ × ℚ) (target_lat target_lon : ℚ)
    (max_attempts : ℕ) : Bool :=
  (ccFrom obs target_lat target_lon 1 max_attempts).isSome

/-- Stated target latitude, KSC (line 188). -/
def target_lat_stated : ℚ := -0.096944

/-- Stated target longitude, KSC (line 189). -/
def target_lon_stated : ℚ := -74.5575

/-- Latitude compensation offset (line 191). -/
def target_mis1 : ℚ := 0

/-- Longitude compensation offset (line 192). -/
def target_mis2 : ℚ := -0.4977200650055238

/-- Effective target latitude handed to check_and_correct (lines 194, 219). -/
def target_lat_effective : ℚ := target_lat_stated + target_mis1

/-- Effective target longitude handed to check_and_correct (lines 195, 219). -/
def target_lon_effective : ℚ := target_lon_stated + target_mis2

/-- Continue condition of the touchdown polling loop (line 248): h is the
previous altitude reading, alt_new the current one; the loop keeps polling
while alt_new - h > 1 and declares the descent finished otherwise. -/
def descent_loop_continues (h alt_new : ℚ) : Bool :=
  decide (1 < alt_new - h)

/-- A successful run of the attempt loop succeeds at an attempt number inside
the attempted range, and at that attempt both errors are below MISS. -/
theorem ccFrom_some_spec (obs : ℕ → ℚ × ℚ) (tlat tlon : ℚ) :
    ∀ r a k, ccFrom obs tlat tlon a r = some k →
      a ≤ k ∧ k < a + r ∧ |tlat - (obs k).1| < MISS ∧ |tlon - (obs k).2| < MISS := by
  intro r
  induction r with
  | zero =>
    intro a k h
    simp [ccFrom] at h
  | succ r ih =>
    intro a k h
    rw [ccFrom] at h
    by_cases hc : |tlat - (obs a).1| < MISS ∧ |tlon - (obs a).2| < MISS
    · rw [if_pos hc] at h
      cases h
      exact ⟨Nat.le_refl _, by omega, hc.1, hc.2⟩
    · rw [if_neg hc] at h
      obtain ⟨h1, h2, h3, h4⟩ := ih (a + 1) k h
      exact ⟨by omega, by omega, h3, h4⟩

/-- If no attempt in the attempted range meets the tolerance, the attempt loop
exhausts its fuel and returns none. -/
theorem ccFrom_none_spec (obs : ℕ → ℚ × ℚ) (tlat tlon : ℚ) :
    ∀ r a, (∀ k, a ≤ k → k < a + r →
        ¬(|tlat - (obs k).1| < MISS ∧ |tlon - (obs k).2| < MISS)) →
      ccFrom obs tlat tlon a r = none := by
  intro r
  induction r with
  | zero =>
    intro a _
    rfl
  | succ r ih =>
    intro a h
    rw [ccFrom]
    rw [if_neg (h a (Nat.le_refl a) (by omega))]
    exact ih (a + 1) fun k hk1 hk2 => h k (by omega) (by omega)

/-- Claim C1: for every max_attempts >= 1 the loop in check_and_correct
performs at most max_attempts correction attempts (a successful attempt number
k satisfies 1 <= k <= max_attempts); on success both final errors are below
MISS = 0.2; and when no attempt meets the tolerance the loop returns the
ordinary failure value false instead of raising. -/
theorem C1_convergence_loop (obs : ℕ → ℚ × ℚ) (tlat tlon : ℚ) (m : ℕ) (hm : 1 ≤ m) :
    (∀ k, ccFrom obs tlat tlon 1 m = some k →
        1 ≤ k ∧ k ≤ m ∧ |tlat - (obs k).1| < MISS ∧ |tlon - (obs k).2| < MISS) ∧
    ((∀ k, 1 ≤ k → k ≤ m → ¬(|tlat - (obs k).1| < MISS ∧ |tlon - (obs k).2| < MISS)) →
        check_and_correct obs tlat tlon m = false) := by
  constructor
  · intro k h
    obtain ⟨h1, h2, h3, h4⟩ := ccFrom_some_spec obs tlat tlon m 1 k h
    exact ⟨h1, by omega, h3, h4⟩
  · intro h
    unfold check_and_correct
    rw [ccFrom_none_spec obs tlat tlon m 1 fun k hk1 hk2 => h k hk1 (by omega)]
    rfl

/-- Witness for C1 at a concrete environment whose prediction error is always
1 degree: no attempt converges and the loop returns false. -/
theorem C1_convergence_loop_witness :
    check_and_correct (fun _ => (1, 1)) 0 0 20 = false :=
  (C1_convergence_loop (fun _ => (1, 1)) 0 0 20 (by norm_num)).2
    (by intro k h1 h2; norm_num [MISS])

/-- Claim C2 counterexample: at an attempt whose error magnitudes are 1 degree
(below the claimed fine bucket bound 5), the tier passed to apply_correction
is 0.5, not the claimed fine tier 0.01. -/
theorem C2_tier_counterexample :
    |(1 : ℚ)| < 5 ∧ correction_throttle 1 1 = 0.5 ∧ correction_throttle 1 1 ≠ 0.01 := by
  refine ⟨by norm_num, rfl, by norm_num [correction_throttle]⟩

/-- Claim C2 (amended): the throttle tier check_and_correct passes to the
impulse application is the constant 0.5 on every attempt, independent of the
error magnitudes. -/
theorem C2_tier_constant (dlat dlon : ℚ) : correction_throttle dlat dlon = 0.5 := rfl

/-- Claim C4: predict_landing_coords returns the not-descending signal exactly
when V_alt >= 0, and for V_alt < 0 it returns the linear extrapolation
current + rate * t on both axes with t = (altitude - TARGET_ALT) / |V_alt|. -/
theorem C4_predict (lat lon alt ω_lat ω_lon V_alt : ℚ) :
    (predict_landing_coords lat lon alt ω_lat ω_lon V_alt = none ↔ 0 ≤ V_alt) ∧
    (V_alt < 0 →
      predict_landing_coords lat lon alt ω_lat ω_lon V_alt =
        some (lat + ω_lat * ((alt - TARGET_ALT) / |V_alt|),
              lon + ω_lon * ((alt - TARGET_ALT) / |V_alt|))) := by
  unfold predict_landing_coords
  by_cases h : 0 ≤ V_alt
  · rw [if_pos h]
    exact ⟨⟨fun _ => h, fun _ => rfl⟩, fun hlt => absurd h (not_le.2 hlt)⟩
  · rw [if_neg h]
    exact ⟨⟨fun hc => by simp at hc, fun hge => absurd hge h⟩, fun _ => rfl⟩

/-- Witness for C4 at altitude 5000 and vertical speed -50: the prediction is
the concrete linear extrapolation. -/
theorem C4_predict_witness :
    predict_landing_coords 0 0 5000 1 1 (-50) =
      some (0 + 1 * ((5000 - TARGET_ALT) / |(-50 : ℚ)|),
            0 + 1 * ((5000 - TARGET_ALT) / |(-50 : ℚ)|)) :=
  (C4_predict 0 0 5000 1 1 (-50)).2 (by norm_num)

/-- Claim C9 (the code at the claim's failing input): between two consecutive
polls the altitude falls from 1400 to 1300, a change of magnitude 100 >= 1, so
the spec requires the loop to keep polling; the loop condition at line 248
compares the signed difference and is false, so the code exits and declares
the vessel landed while it is still falling. -/
theorem C9_touchdown_eval :
    descent_loop_continues 1400 1300 = false ∧ (1 : ℚ) ≤ |(1300 : ℚ) - 1400| := by
  constructor
  · simp only [descent_loop_continues, decide_eq_false_iff_not]
    norm_num
  · rw [show (1300 : ℚ) - 1400 = -100 by norm_num, abs_neg, abs_of_nonneg] <;> norm_num

/-- Claim C10: the target handed to check_and_correct is not the stated KSC
coordinate: a fixed compensation offset is added to the longitude and zero to
the latitude, and success of the loop run against the effective target means
the predicted point is within MISS of the effective coordinate. -/
theorem C10_target_offset :
    target_lat_effective = target_lat_stated ∧
    target_lon_effective = target_lon_stated + (-0.4977200650055238) ∧
    (target_lat_effective, target_lon_effective) ≠ (target_lat_stated, target_lon_stated) ∧
    (∀ obs : ℕ → ℚ × ℚ, ∀ m k,
      ccFrom obs target_lat_effective target_lon_effective 1 m = some k →
        |target_lat_effective - (obs k).1| < MISS ∧
        |target_lon_effective - (obs k).2| < MISS) := by
  refine ⟨by norm_num [target_lat_effective, target_lat_stated, target_mis1], rfl, ?_, ?_⟩
  · intro h
    have h2 := congrArg Prod.snd h
    norm_num [target_lon_effective, target_lon_stated, target_mis2] at h2
  · intro obs m k h
    exact ⟨(ccFrom_some_spec obs _ _ m 1 k h).2.2.1, (ccFrom_some_spec obs _ _ m 1 k h).2.2.2⟩

/-- Witness for C10: the environment that always predicts exactly the effective
target converges at the first attempt, with both errors below MISS. -/
theorem C10_target_offset_witness :
    |target_lat_effective - target_lat_effective| < MISS ∧
    |target_lon_effective - target_lon_effective| < MISS :=
  C10_target_offset.2.2.2 (fun _ => (target_lat_effective, target_lon_effective)) 20 1
    (by rw [show (20 : ℕ) = 19 + 1 from rfl, ccFrom]
        rw [if_pos (by constructor <;> norm_num [MISS])])

/-- Claim C3: apply_correction takes the no-thrust failure branch exactly when
the summed available thrust over active, fueled engines is 0 (given that each
engine's available thrust is nonnegative), and the failure is not silent: it
is reported and the burn is skipped. -/
theorem C3_no_thrust (engines : List Engine) (mass dV thr_pow : ℚ)
    (hnn : ∀ e ∈ engines, 0 ≤ e.available_thrust) :
    ((apply_correction engines mass dV thr_pow).failed = true ↔
      get_current_thrust engines = 0) ∧
    ((apply_correction engines mass dV thr_pow).failed = true →
      (apply_correction engines mass dV thr_pow).reported = true ∧
      (apply_correction engines mass dV thr_pow).burn = none) := by
  have h0 : 0 ≤ get_current_thrust engines := by
    unfold get_current_thrust
    apply List.sum_nonneg
    intro x hx
    obtain ⟨e, he, rfl⟩ := List.mem_map.1 hx
    exact hnn e (List.mem_of_mem_filter he)
  unfold apply_correction
  by_cases hpos : 0 < get_current_thrust engines
  · rw [if_pos hpos]
    refine ⟨⟨fun hf => absurd hf (by simp), fun hz => ?_⟩, fun hf => absurd hf (by simp)⟩
    rw [hz] at hpos
    exact absurd hpos (lt_irrefl 0)
  · rw [if_neg hpos]
    exact ⟨⟨fun _ => le_antisymm (not_lt.1 hpos) h0, fun _ => rfl⟩, fun _ => ⟨rfl, rfl⟩⟩

/-- Witness for C3 with an empty engine list: thrust is 0, the call fails,
reports, and performs no burn. -/
theorem C3_no_thrust_witness :
    (apply_correction [] 1000 3 0.5).failed = true ∧
    (apply_correction [] 1000 3 0.5).reported = true ∧
    (apply_correction [] 1000 3 0.5).burn = none := by
  have h := C3_no_thrust [] 1000 3 0.5 (by intro e he; cases he)
  have hf : (apply_correction [] 1000 3 0.5).failed = true := h.1.2 rfl
  exact ⟨hf, (h.2 hf).1, (h.2 hf).2⟩

/-- Claim C7: with positive thrust the burn apply_correction holds is the
commanded throttle for max(0.05, min(mass * dV / thrust, 5)) seconds, and that
duration always lies in [0.05, 5]. -/
theorem C7_burn_duration (engines : List Engine) (mass dV thr_pow : ℚ)
    (hpos : 0 < get_current_thrust engines) :
    (apply_correction engines mass dV thr_pow).burn =
      some (thr_pow, max 0.05 (min (mass * dV / get_current_thrust engines) 5)) ∧
    (0.05 : ℚ) ≤ max 0.05 (min (mass * dV / get_current_thrust engines) 5) ∧
    max 0.05 (min (mass * dV / get_current_thrust engines) 5) ≤ 5 := by
  refine ⟨?_, le_max_left _ _, max_le (by norm_num) (min_le_right _ _)⟩
  unfold apply_correction
  rw [if_pos hpos]

/-- Witness for C7 with one active fueled engine of thrust 200: the burn is
the clamped duration at throttle 0.5. -/
theorem C7_burn_duration_witness :
    (apply_correction [⟨200, true, true⟩] 10 3 0.5).burn =
      some (0.5, max 0.05 (min (10 * 3 / get_current_thrust [⟨200, true, true⟩]) 5)) :=
  (C7_burn_duration [⟨200, true, true⟩] 10 3 0.5 (by norm_num [get_current_thrust])).1

/-- A heading derived from a dV_lon of magnitude above 0.1 is the sign value 1
or -1, never 0. -/
theorem correction_heading_ne_zero (dV_lon : ℚ) (h : 0.1 < |dV_lon|) :
    correction_heading dV_lon ≠ 0 := by
  unfold correction_heading
  rw [if_pos h]
  by_cases hs : 0 < dV_lon
  · rw [if_pos hs]
    norm_num
  · rw [if_neg hs]
    norm_num

/-- Claim C8 counterexample: with dV_lat = 20 one error magnitude is >= 10,
so the claim demands the full three-axis direction with a nonzero third
component, yet the commanded third component is 0 (the code zeroes it when
EITHER magnitude is below 10, line 87). -/
theorem C8_direction_counterexample :
    (10 : ℚ) ≤ |(20 : ℚ)| ∧ (correction_direction 20 1).2.2 = 0 := by
  constructor
  · rw [abs_of_nonneg] <;> norm_num
  · unfold correction_direction
    rw [if_pos (Or.inl (by rw [abs_one]; norm_num))]

/-- Claim C8 (amended): the commanded direction zeroes its third component
when EITHER error magnitude is below 10; only when both magnitudes are at
least 10 is the full three-axis direction commanded, and then its third
component repeats the (nonzero) heading. -/
theorem C8_direction (dV_lat dV_lon : ℚ) :
    ((|dV_lon| < 10 ∨ |dV_lat| < 10) → (correction_direction dV_lat dV_lon).2.2 = 0) ∧
    (10 ≤ |dV_lon| → 10 ≤ |dV_lat| →
      correction_direction dV_lat dV_lon =
        (correction_heading dV_lon, correction_roll dV_lat, correction_heading dV_lon) ∧
      correction_heading dV_lon ≠ 0) := by
  unfold correction_direction
  by_cases h : |dV_lon| < 10 ∨ |dV_lat| < 10
  · rw [if_pos h]
    exact ⟨fun _ => rfl,
      fun h1 h2 => absurd h (by rw [not_or]; exact ⟨not_lt.2 h1, not_lt.2 h2⟩)⟩
  · rw [if_neg h]
    refine ⟨fun hc => absurd hc h, fun h1 h2 => ⟨rfl, correction_heading_ne_zero dV_lon ?_⟩⟩
    calc (0.1 : ℚ) < 10 := by norm_num
    _ ≤ |dV_lon| := h1

/-- Witness for C8: a mixed pair (12, 1/2) has its third component zeroed, and
the both-large pair (12, 15) gets the full direction. -/
theorem C8_direction_witness :
    (correction_direction 12 (1 / 2)).2.2 = 0 ∧
    correction_direction 12 15 =
      (correction_heading 15, correction_roll 12, correction_heading 15) :=
  ⟨(C8_direction 12 (1 / 2)).1 (Or.inl (by rw [abs_of_nonneg] <;> norm_num)),
   ((C8_direction 12 15).2 (by rw [abs_of_nonneg] <;> norm_num)
      (by rw [abs_of_nonneg] <;> norm_num)).1⟩

/-- R is the positive radius 600000. -/
theorem R_pos : (0 : ℝ) < R := by norm_num [R]

/-- Claim C5: calculate_required_dV returns exactly 0 inside the dead zone
|dcoord| < 0.01 (whatever t and lat are); outside the dead zone, for t > 0,
the latitude variant (lat = 0) returns dcoord * (pi * R / (180 * t)), and its
absolute value is strictly increasing in |dcoord|. -/
theorem C5_required_dV (d t lat : ℝ) :
    (|d| < 0.01 → calculate_required_dV d t lat = 0) ∧
    (0 < t → 0.01 ≤ |d| →
      calculate_required_dV d t 0 = d * (Real.pi * R / (180 * t))) ∧
    (0 < t → 0.01 ≤ |d| → ∀ d2, |d| < |d2| →
      |calculate_required_dV d t 0| < |calculate_required_dV d2 t 0|) := by
  have habs0 : ¬((0.1 : ℝ) < |(0 : ℝ)|) := by rw [abs_zero]; norm_num
  have hform : ∀ x : ℝ, 0.01 ≤ |x| →
      calculate_required_dV x t 0 = x * (Real.pi * R / (180 * t)) := by
    intro x hx
    unfold calculate_required_dV
    rw [if_neg (not_lt.2 hx), if_neg habs0]
  refine ⟨?_, fun _ hd => hform d hd, ?_⟩
  · intro hd
    unfold calculate_required_dV
    rw [if_pos hd]
  · intro ht hd d2 hlt
    have hd2 : (0.01 : ℝ) ≤ |d2| := le_of_lt (lt_of_le_of_lt hd hlt)
    rw [hform d hd, hform d2 hd2]
    have hm : 0 < Real.pi * R / (180 * t) := by
      apply div_pos (mul_pos Real.pi_pos R_pos)
      linarith
    rw [abs_mul, abs_mul, abs_of_pos hm]
    exact mul_lt_mul_of_pos_right hlt hm

/-- Witness for C5 at the spec's scenario values: dead-zone input 0 maps to 0,
and the scenario error 0.403 at t = 80 follows the formula. -/
theorem C5_required_dV_witness :
    calculate_required_dV 0 80 0 = 0 ∧
    calculate_required_dV 0.403 80 0 = 0.403 * (Real.pi * R / (180 * 80)) :=
  ⟨(C5_required_dV 0 80 0).1 (by rw [abs_zero]; norm_num),
   (C5_required_dV 0.403 80 0).2.1 (by norm_num)
     (by rw [abs_of_nonneg (by norm_num : (0:ℝ) ≤ 0.403)]; norm_num)⟩

/-- Claim C6 counterexample: at latitude 1/20 — nonzero but of magnitude below
the 0.1 cutoff at line 53 — the longitude variant applies no cosine scaling,
so it is not cos(lat in radians) times the latitude variant. -/
theorem C6_cos_counterexample :
    calculate_required_dV 1 1 (1 / 20) ≠
      Real.cos ((1 / 20) * Real.pi / 180) * calculate_required_dV 1 1 0 := by
  have h1 : ¬(|(1 : ℝ)| < 0.01) := by rw [abs_one]; norm_num
  have hsmall : ¬((0.1 : ℝ) < |(1 / 20 : ℝ)|) := by
    rw [abs_of_nonneg (by norm_num : (0:ℝ) ≤ 1 / 20)]
    norm_num
  have h0 : ¬((0.1 : ℝ) < |(0 : ℝ)|) := by rw [abs_zero]; norm_num
  have e1 : calculate_required_dV 1 1 (1 / 20) = 1 * (Real.pi * R / (180 * 1)) := by
    unfold calculate_required_dV
    rw [if_neg h1, if_neg hsmall]
  have e0 : calculate_required_dV 1 1 0 = 1 * (Real.pi * R / (180 * 1)) := by
    unfold calculate_required_dV
    rw [if_neg h1, if_neg h0]
  rw [e1, e0]
  have hm : 0 < Real.pi * R / (180 * 1) := by
    apply div_pos (mul_pos Real.pi_pos R_pos)
    norm_num
  have hx0 : 0 < (1 / 20 : ℝ) * Real.pi / 180 := by positivity
  have hx2 : (1 / 20 : ℝ) * Real.pi / 180 < 2 * Real.pi := by
    have hp := Real.pi_pos
    nlinarith
  have hne1 : Real.cos ((1 / 20) * Real.pi / 180) ≠ 1 := by
    intro hc
    have hz := (Real.cos_eq_one_iff_of_lt_of_lt
      (by linarith [Real.pi_pos] : -(2 * Real.pi) < (1 / 20 : ℝ) * Real.pi / 180) hx2).1 hc
    exact absurd hz (ne_of_gt hx0)
  have hlt : Real.cos ((1 / 20) * Real.pi / 180) < 1 :=
    lt_of_le_of_ne (Real.cos_le_one _) hne1
  intro heq
  have hcontra : Real.cos ((1 / 20) * Real.pi / 180) * (1 * (Real.pi * R / (180 * 1))) <
      1 * (1 * (Real.pi * R / (180 * 1))) := by
    apply mul_lt_mul_of_pos_right hlt
    linarith
  rw [← heq] at hcontra
  linarith

/-- Claim C6 (amended): for t > 0, |Δcoord| >= 0.01 and |lat| > 0.1 (the
condition under which line 53 applies the cosine), the longitude variant
equals cos(lat in radians) times the latitude variant at equal Δcoord, t. -/
theorem C6_cos_scaling (d t lat : ℝ) (ht : 0 < t) (hlat : 0.1 < |lat|)
    (hd : 0.01 ≤ |d|) :
    calculate_required_dV d t lat =
      Real.cos (lat * Real.pi / 180) * calculate_required_dV d t 0 := by
  unfold calculate_required_dV
  rw [if_neg (not_lt.2 hd), if_neg (not_lt.2 hd), if_pos hlat,
      if_neg (by rw [abs_zero]; norm_num : ¬((0.1 : ℝ) < |(0 : ℝ)|))]
  ring

/-- Witness for C6 at latitude 60 degrees, where the cosine scaling applies. -/
theorem C6_cos_scaling_witness :
    calculate_required_dV 1 1 60 =
      Real.cos (60 * Real.pi / 180) * calculate_required_dV 1 1 0 :=
  C6_cos_scaling 1 1 60 (by norm_num)
    (by rw [abs_of_nonneg (by norm_num : (0:ℝ) ≤ 60)]; norm_num)
    (by rw [abs_one]; norm_num)

end Landing2
